import Mathlib

set_option maxRecDepth 1000000

/-!
Verification of the flow-backend payment service (`src/main.py`).

The service sells a single digital product through the Flow payment
gateway: it creates checkout sessions, processes asynchronous payment
confirmation callbacks, and serves the product behind a one-time
download token.  This file shallowly embeds the relevant Python
functions as executable Lean definitions (network responses, fresh
UUIDs and timestamps become explicit parameters; the SQLite table
becomes a list of rows; raised `HTTPException`s become `Except`
errors) and proves or refutes the specified properties.
-/

namespace FlowBackend

/-! ## Bytes, SHA-256 and HMAC

`flow_sign` uses Python's `hmac.new(secret, msg, hashlib.sha256)`.
We implement SHA-256 and HMAC over `List Nat` (bytes, each < 256),
following FIPS 180-4 / RFC 2104, so signatures are computable. -/

/-- UTF-8 encoding of a single character (RFC 3629). -/
def utf8Bytes (c : Char) : List Nat :=
  let n := c.toNat
  if n < 128 then [n]
  else if n < 2048 then [192 + n / 64, 128 + n % 64]
  else if n < 65536 then [224 + n / 4096, 128 + (n / 64) % 64, 128 + n % 64]
  else [240 + n / 262144, 128 + (n / 4096) % 64, 128 + (n / 64) % 64, 128 + n % 64]

/-- UTF-8 bytes of a string (Python's `str.encode()`). -/
def strBytes (s : String) : List Nat :=
  (s.data.map utf8Bytes).flatten

/-- 2^32, the modulus for 32-bit words. -/
def m32 : Nat := 4294967296

/-- Right rotation of a 32-bit word. -/
def rotr32 (n x : Nat) : Nat :=
  ((x >>> n) ||| ((x % (2 ^ n)) <<< (32 - n))) % m32

/-- The 64 SHA-256 round constants. -/
def sha256K : List Nat :=
  [1116352408, 1899447441, 3049323471, 3921009573, 961987163, 1508970993,
   2453635748, 2870763221, 3624381080, 310598401, 607225278, 1426881987,
   1925078388, 2162078206, 2614888103, 3248222580, 3835390401, 4022224774,
   264347078, 604807628, 770255983, 1249150122, 1555081692, 1996064986,
   2554220882, 2821834349, 2952996808, 3210313671, 3336571891, 3584528711,
   113926993, 338241895, 666307205, 773529912, 1294757372, 1396182291,
   1695183700, 1986661051, 2177026350, 2456956037, 2730485921, 2820302411,
   3259730800, 3345764771, 3516065817, 3600352804, 4094571909, 275423344,
   430227734, 506948616, 659060556, 883997877, 958139571, 1322822218,
   1537002063, 1747873779, 1955562222, 2024104815, 2227730452, 2361852424,
   2428436474, 2756734187, 3204031479, 3329325298]

/-- The SHA-256 initial hash value. -/
def sha256InitH : List Nat :=
  [1779033703, 3144134277, 1013904242, 2773480762,
   1359893119, 2600822924, 528734635, 1541459225]

/-- Group a byte list into big-endian 32-bit words. -/
def toWords32 : List Nat → List Nat
  | a :: b :: c :: d :: rest => (((a * 256 + b) * 256 + c) * 256 + d) :: toWords32 rest
  | _ => []

/-- SHA-256 padding: append 0x80, zeros, and the 64-bit big-endian bit length. -/
def sha256pad (msg : List Nat) : List Nat :=
  let len := msg.length
  let zeros := (119 - len % 64) % 64
  let bitLen := len * 8
  msg ++ [128] ++ List.replicate zeros 0 ++
    ((List.range 8).map fun i => (bitLen >>> (8 * (7 - i))) % 256)

/-- Split a byte list into 64-byte blocks (structural recursion on a fuel
bound so the definition reduces in the kernel). -/
def chunk64Aux : Nat → List Nat → List (List Nat)
  | 0, _ => []
  | _, [] => []
  | fuel + 1, l => l.take 64 :: chunk64Aux fuel (l.drop 64)

/-- Split a byte list into 64-byte blocks. -/
def chunk64 (l : List Nat) : List (List Nat) :=
  chunk64Aux l.length l

/-- Extend the 16 message words to the 64-entry SHA-256 message schedule. -/
def sha256schedule (w16 : List Nat) : List Nat :=
  (List.range 48).foldl
    (fun w _ =>
      let i := w.length
      let x15 := w.getD (i - 15) 0
      let x2 := w.getD (i - 2) 0
      let s0 := (rotr32 7 x15) ^^^ (rotr32 18 x15) ^^^ (x15 >>> 3)
      let s1 := (rotr32 17 x2) ^^^ (rotr32 19 x2) ^^^ (x2 >>> 10)
      w ++ [(w.getD (i - 16) 0 + s0 + w.getD (i - 7) 0 + s1) % m32])
    w16

/-- One SHA-256 compression step over a 64-byte block. -/
def sha256compress (hv : List Nat) (block : List Nat) : List Nat :=
  let w := sha256schedule (toWords32 block)
  let st := (List.range 64).foldl
    (fun st i =>
      match st with
      | [a, b, c, d, e, f, g, hh] =>
        let s1 := rotr32 6 e ^^^ rotr32 11 e ^^^ rotr32 25 e
        let ch := (e &&& f) ^^^ ((e ^^^ 4294967295) &&& g)
        let t1 := (hh + s1 + ch + sha256K.getD i 0 + w.getD i 0) % m32
        let s0 := rotr32 2 a ^^^ rotr32 13 a ^^^ rotr32 22 a
        let mj := (a &&& b) ^^^ (a &&& c) ^^^ (b &&& c)
        let t2 := (s0 + mj) % m32
        [(t1 + t2) % m32, a, b, c, (d + t1) % m32, e, f, g]
      | other => other)
    hv
  (st.zip hv).map fun p => (p.1 + p.2) % m32

/-- SHA-256 digest of a byte list, as 32 bytes. -/
def sha256bytes (msg : List Nat) : List Nat :=
  let hs := (chunk64 (sha256pad msg)).foldl sha256compress sha256InitH
  hs.foldr
    (fun w acc =>
      (w >>> 24) % 256 :: (w >>> 16) % 256 :: (w >>> 8) % 256 :: w % 256 :: acc)
    []

/-- HMAC-SHA256 (RFC 2104) over byte lists, 64-byte block size. -/
def hmacSha256 (key msg : List Nat) : List Nat :=
  let k0 := if 64 < key.length then sha256bytes key else key
  let kp := k0 ++ List.replicate (64 - k0.length) 0
  let ipad := kp.map (· ^^^ 54)
  let opad := kp.map (· ^^^ 92)
  sha256bytes (opad ++ sha256bytes (ipad ++ msg))

/-- Lowercase hex digit for a value < 16. -/
def hexDigit (n : Nat) : Char :=
  if n < 10 then Char.ofNat (48 + n) else Char.ofNat (87 + n)

/-- Lowercase hex rendering of a byte list (Python's `.hexdigest()`). -/
def bytesToHex (l : List Nat) : String :=
  String.mk (l.foldr (fun b acc => hexDigit (b / 16) :: hexDigit (b % 16) :: acc) [])

/-! ## Signing (`flow_sign`)

Python: `items = sorted(params.items(), key=lambda x: x[0])`, then
`to_sign = "".join([f"{k}{v}" for k, v in items])`, then
HMAC-SHA256 hexdigest with the secret key.  A `dict`'s items have
pairwise-distinct keys; we model the parameter map as an association
list (the dict's iteration order) with values already string-rendered,
and `sorted` as a stable insertion sort on keys. -/

/-- Python's string `<`: lexicographic comparison of code points. -/
def pyStrLt : List Char → List Char → Bool
  | [], [] => false
  | [], _ :: _ => true
  | _ :: _, [] => false
  | c :: cs, d :: ds =>
    if c < d then true
    else if d < c then false
    else pyStrLt cs ds

/-- Python's string `<=`: `a <= b` iff not `b < a`. -/
def pyStrLe (a b : String) : Bool :=
  !pyStrLt b.data a.data

/-- Insert an entry after all entries with a key ≤ its key
(so equal keys keep their original relative order, as in Python's
stable `sorted`). -/
def insertAfterLe (p : String × String) : List (String × String) → List (String × String)
  | [] => [p]
  | q :: rest => if pyStrLe q.1 p.1 then q :: insertAfterLe p rest else p :: q :: rest

/-- Stable sort of an association list by key, ascending
(Python's `sorted(..., key=lambda x: x[0])`). -/
def sortByKey (l : List (String × String)) : List (String × String) :=
  l.foldl (fun acc p => insertAfterLe p acc) []

/-- `flow_sign` from `src/main.py`: sort the parameters by key
ascending, concatenate each `key` directly followed by its `value`
with no separator, and return the lowercase-hex HMAC-SHA256 of the
concatenation under `secret_key`.  (No key is excluded: the function
signs every entry of the map it is given.) -/
def flow_sign (params : List (String × String)) (secret_key : String) : String :=
  let items := sortByKey params
  let to_sign := String.join (items.map fun kv => kv.1 ++ kv.2)
  bytesToHex (hmacSha256 (strBytes secret_key) (strBytes to_sign))

/-- The Signer contract as §4.1 of the spec words it: identical to
`flow_sign` except that any pre-existing signature field (the `s`
parameter) is excluded before sorting and concatenating. -/
def sign_spec (params : List (String × String)) (secret : String) : String :=
  let items := sortByKey (params.filter fun kv => kv.1 ≠ "s")
  let to_sign := String.join (items.map fun kv => kv.1 ++ kv.2)
  bytesToHex (hmacSha256 (strBytes secret) (strBytes to_sign))

/-! ## Data model: the `orders` table

Schema (`db_init`): `id TEXT PRIMARY KEY`, `created_at`/`email`/
`commerce_order`/`flow_token` NOT NULL, `status INTEGER NOT NULL`
(1 = created, 2 = paid), nullable `download_token` and `paid_at`.
Only `id` carries a uniqueness constraint; the two indexes on
`flow_token` and `download_token` are not UNIQUE.  A store is the
table's rows in insertion (rowid) order; `fetchone` on a lookup is
`List.find?`. -/

structure Order where
  id : String
  created_at : String
  email : String
  commerce_order : String
  flow_token : String
  status : Nat
  download_token : Option String
  paid_at : Option String
deriving Repr, DecidableEq

abbrev Store := List Order

/-- `db_create_order`: `INSERT INTO orders ... VALUES (...)` with
`status = 1` and NULL `download_token`/`paid_at`.  The insert raises
`IntegrityError` exactly when the PRIMARY KEY `id` already exists;
no other column is constrained unique.  The `datetime.utcnow()`
timestamp is passed in as `now`. -/
def db_create_order (s : Store) (order_id email commerce_order flow_token now : String) :
    Except String Store :=
  if s.any (fun o => o.id = order_id) then
    .error "UNIQUE constraint failed: orders.id"
  else
    .ok (s ++ [⟨order_id, now, email, commerce_order, flow_token, 1, none, none⟩])

/-- `db_get_by_flow_token`: `SELECT ... WHERE flow_token=?` then
`fetchone()` — the first matching row. -/
def db_get_by_flow_token (s : Store) (flow_token : String) : Option Order :=
  s.find? fun o => o.flow_token = flow_token

/-- `db_mark_paid`: the conditional update
`UPDATE orders SET status=2, download_token=?, paid_at=?
 WHERE flow_token=? AND (status IS NULL OR status != 2 OR download_token IS NULL)`.
`status` is NOT NULL by schema, so the `status IS NULL` disjunct is
vacuous and is dropped.  Every matching row is updated; the Python
function returns `None` (no applied/not-applied report). -/
def db_mark_paid (s : Store) (flow_token download_token now : String) : Store :=
  s.map fun o =>
    if o.flow_token = flow_token ∧ (o.status ≠ 2 ∨ o.download_token = none) then
      { o with status := 2, download_token := some download_token, paid_at := some now }
    else o

/-- `db_get_by_download_token`: `SELECT ... WHERE download_token=?`
then `fetchone()`.  SQL equality never matches a NULL column, so only
rows whose `download_token` is non-null and equal are found. -/
def db_get_by_download_token (s : Store) (download_token : String) : Option Order :=
  s.find? fun o => o.download_token = some download_token

/-- `markPaidIfUnpaid` as §4.3 of the spec words it: update a row
**only if** its status is not already PAID **and** no download token
is set (the code's WHERE clause instead uses an inclusive OR of the
two conditions). -/
def markPaidIfUnpaid_spec (s : Store) (flow_token download_token now : String) : Store :=
  s.map fun o =>
    if o.flow_token = flow_token ∧ (o.status ≠ 2 ∧ o.download_token = none) then
      { o with status := 2, download_token := some download_token, paid_at := some now }
    else o

/-! ## Configuration, HTTP errors and gateway responses

Environment-sourced configuration becomes an explicit record.  A
raised FastAPI `HTTPException` becomes the `HErr` error of an
`Except`; when it escapes an endpoint, the framework turns it into an
HTTP response with that status code.  Outbound network calls are
modelled by passing in the response the gateway would return:
`status_code` and `text` as received, and the parse outcome of
`resp.json()` (`none` when the body is not JSON). -/

structure Config where
  flow_api_key : String
  flow_secret_key : String
  public_base_url : String
  download_base_url : String
  product_file : String
deriving Repr, DecidableEq

/-- A raised `HTTPException status_code detail`. -/
structure HErr where
  status_code : Nat
  detail : String
deriving Repr, DecidableEq

/-- Response of the gateway's `payment/getStatus` endpoint as the
code consumes it: HTTP status, raw text, and the parse of the body —
`none` if not JSON, `some f` if JSON whose optional integer `status`
field is `f`. -/
structure StatusResp where
  status_code : Nat
  text : String
  json : Option (Option Nat)
deriving Repr, DecidableEq

/-- Parsed body of the gateway's `payment/create` endpoint: the
optional `token` and `url` fields of the JSON object. -/
structure CreateJson where
  token : Option String
  url : Option String
deriving Repr, DecidableEq

/-- Response of the gateway's `payment/create` endpoint: HTTP status,
raw text, and the parse of the body (`none` if not JSON). -/
structure CreateResp where
  status_code : Nat
  text : String
  json : Option CreateJson
deriving Repr, DecidableEq

/-- `flow_post`: raises 500 if either API credential is unset, signs
the parameters (with `apiKey` attached) and POSTs them, raises 400 on
a non-200 HTTP status, raises 400 if the body is not JSON, and
otherwise returns the parsed body. -/
def flow_post (cfg : Config) (params : List (String × String)) (resp : CreateResp) :
    Except HErr CreateJson :=
  if cfg.flow_api_key = "" ∨ cfg.flow_secret_key = "" then
    .error ⟨500, "FLOW_API_KEY / FLOW_SECRET_KEY no configuradas en .env"⟩
  else
    let params1 := params ++ [("apiKey", cfg.flow_api_key)]
    let _params2 := params1 ++ [("s", flow_sign params1 cfg.flow_secret_key)]
    -- _params2 is the signed form body sent over the wire; the reply is `resp`.
    if resp.status_code ≠ 200 then
      .error ⟨400, "Flow error: " ++ resp.text⟩
    else
      match resp.json with
      | none => .error ⟨400, "Flow response no-JSON: " ++ resp.text⟩
      | some data => .ok data

/-- `flow_get_status`: signs `{apiKey, token}` and GETs
`payment/getStatus`; raises 400 on a non-200 HTTP status, raises 400
if the body is not JSON, and otherwise returns the parsed body.
Unlike `flow_post`, it performs NO credential check: an empty
`FLOW_API_KEY`/`FLOW_SECRET_KEY` is used as-is. -/
def flow_get_status (cfg : Config) (token : String) (resp : StatusResp) :
    Except HErr (Option Nat) :=
  let params := [("apiKey", cfg.flow_api_key), ("token", token)]
  let _params1 := params ++ [("s", flow_sign params cfg.flow_secret_key)]
  -- _params1 is the signed query string sent over the wire; the reply is `resp`.
  if resp.status_code ≠ 200 then
    .error ⟨400, "Flow status error: " ++ resp.text⟩
  else
    match resp.json with
    | none => .error ⟨400, "Flow status response no-JSON: " ++ resp.text⟩
    | some j => .ok j

/-! ## Endpoints

Each FastAPI endpoint becomes a function over the store.  `uuid4()`
results and `datetime.utcnow()` timestamps are passed in as
parameters; `BackgroundTasks.add_task(send_email, to, subject, body)`
is recorded as a list of scheduled notifications
`(recipient, download link)`.  A JSON body returned by an endpoint is
a `JsonResp`; an escaping `HTTPException` is the `.error` case. -/

/-- Python's `\s` / `str.strip()` whitespace (ASCII part). -/
def pyWsChar (c : Char) : Bool :=
  c = ' ' || c = '\t' || c = '\n' || c = '\r' || c = '\x0b' || c = '\x0c'

/-- Python's `str.strip()`: drop whitespace from both ends. -/
def pyStrip (s : String) : String :=
  String.mk (((s.data.dropWhile pyWsChar).reverse.dropWhile pyWsChar).reverse)

/-- Python's `str.lower()` (ASCII case mapping). -/
def pyLower (s : String) : String :=
  String.mk (s.data.map Char.toLower)

/-- Split a character list on a separator character (Python's
`str.split(sep)` for a one-character separator). -/
def splitOnChar (sep : Char) : List Char → List (List Char)
  | [] => [[]]
  | c :: rest =>
    match splitOnChar sep rest with
    | [] => [[]]
    | g :: gs => if c = sep then [] :: g :: gs else (c :: g) :: gs

/-- `is_valid_email`: full match of `^[^@\s]+@[^@\s]+\.[^@\s]+$`
(`\s` modelled as ASCII whitespace).  A string matches iff it has no
whitespace, exactly one `@` preceded by at least one character, and
the part after the `@` contains a `.` that is neither its first nor
its last character. -/
def is_valid_email (email : String) : Bool :=
  match splitOnChar '@' email.data with
  | [localPart, domain] =>
    !localPart.isEmpty && email.data.all (fun c => !pyWsChar c) &&
      ((domain.drop 1).dropLast.contains '.')
  | _ => false

/-- A JSON body returned by an endpoint: the `ok` flag and the
optional `error`, `warn` and `message` fields. -/
structure JsonResp where
  ok : Bool
  error_msg : Option String
  warn : Option String
  message : Option String
deriving Repr, DecidableEq

/-- Result of `POST /pay/create`: `checkoutUrl` and the gateway token
(the `ok` field is constant `true`). -/
structure PayOut where
  checkoutUrl : String
  token : String
deriving Repr, DecidableEq

/-- The fixed parameter set `pay_create` sends to `payment/create`. -/
def pay_create_params (cfg : Config) (commerce_order order_id email : String) :
    List (String × String) :=
  [("commerceOrder", commerce_order),
   ("subject", "Pack IA para PYMES 2026"),
   ("currency", "CLP"),
   ("amount", "350"),
   ("email", email),
   ("urlConfirmation", cfg.public_base_url ++ "/flow/confirmation"),
   ("urlReturn", cfg.public_base_url ++ "/flow/return"),
   ("optional", "\x7b\"orderId\":\"" ++ order_id ++ "\"\x7d")]

/-- `POST /pay/create`: validate the email (400), require
`PUBLIC_BASE_URL` (500), call `payment/create` through `flow_post`,
read `token` and `url` from the reply (an absent field is a `KeyError`
escaping as 500), persist the order, and return the checkout URL.
The fresh `uuid4()` values and the timestamp are the parameters
`commerce_order`, `order_id`, `now`; the first component of the
result is the store after the request. -/
def pay_create (cfg : Config) (s : Store) (payload_email : Option String)
    (resp : CreateResp) (commerce_order order_id now : String) :
    Store × Except HErr PayOut :=
  let email := pyLower (pyStrip (payload_email.getD ""))
  if is_valid_email email = false then
    (s, .error ⟨400, "Email inválido o faltante"⟩)
  else if cfg.public_base_url = "" then
    (s, .error ⟨500, "PUBLIC_BASE_URL no está configurado (necesario para urlConfirmation/urlReturn públicos)."⟩)
  else
    match flow_post cfg (pay_create_params cfg commerce_order order_id email) resp with
    | .error e => (s, .error e)
    | .ok data =>
      match data.token, data.url with
      | some flow_token, some url =>
        (match db_create_order s order_id email commerce_order flow_token now with
         | .error msg => (s, .error ⟨500, msg⟩)
         | .ok s1 => (s1, .ok ⟨url ++ "?token=" ++ flow_token, flow_token⟩))
      | _, _ => (s, .error ⟨500, "KeyError"⟩)

/-- `POST /flow/confirmation`: read `token` from the form (absent or
blank: answer 200 with `ok:false, error:"missing token"`), ask the
gateway for the authoritative status (an `HTTPException` raised by
`flow_get_status` escapes), look the order up by gateway token
(unknown: 200 with `warn:"order_not_found"`).  If the status is
2 (paid): reuse a truthy existing download token, otherwise mint
`fresh_download_token` and run `db_mark_paid`; then — on every paid
callback, whether or not the conditional update ran — schedule the
download-link email to the stored address, and answer `ok:true`.
The middle component of the result lists the scheduled notifications
`(recipient, download link)`. -/
def flow_confirmation (cfg : Config) (s : Store) (form_token : Option String)
    (resp : StatusResp) (fresh_download_token now : String) :
    Store × List (String × String) × Except HErr JsonResp :=
  let token := pyStrip (form_token.getD "")
  if token = "" then
    (s, [], .ok ⟨false, some "missing token", none, none⟩)
  else
    match flow_get_status cfg token resp with
    | .error e => (s, [], .error e)
    | .ok j =>
      let st := j.getD 0
      match db_get_by_flow_token s token with
      | none => (s, [], .ok ⟨true, none, some "order_not_found", none⟩)
      | some order =>
        if st = 2 then
          let existing := order.download_token.getD ""
          let dt_s1 : String × Store :=
            if existing ≠ "" then (existing, s)
            else (fresh_download_token, db_mark_paid s token fresh_download_token now)
          let download_link := cfg.download_base_url ++ "/download/" ++ dt_s1.1
          (dt_s1.2, [(order.email, download_link)], .ok ⟨true, none, none, none⟩)
        else
          (s, [], .ok ⟨true, none, none, none⟩)

/-- `POST /flow/return`: read `token` from the form (absent or blank:
`ok:false, error:"missing token"`), ask the gateway for the status
(a raised `HTTPException` escapes), and map status 2 to the
"confirmed, check email" message, 1 to the "pending" message, and
anything else to `ok:false` with the "not completed" message.  The
endpoint makes no database call: the store component of the result is
the input store. -/
def flow_return (cfg : Config) (s : Store) (form_token : Option String)
    (resp : StatusResp) : Store × Except HErr JsonResp :=
  let token := pyStrip (form_token.getD "")
  if token = "" then
    (s, .ok ⟨false, some "missing token", none, none⟩)
  else
    match flow_get_status cfg token resp with
    | .error e => (s, .error e)
    | .ok j =>
      let st := j.getD 0
      if st = 2 then
        (s, .ok ⟨true, none, none, some "Pago confirmado. Revisa tu correo para el link de descarga."⟩)
      else if st = 1 then
        (s, .ok ⟨true, none, none, some "Pago pendiente. Si fue transferencia/cupón, puede tardar."⟩)
      else
        (s, .ok ⟨false, none, none, some "Pago no completado (rechazado/anulado)."⟩)

/-- A successful `FileResponse`: path, media type and filename. -/
structure FileOut where
  path : String
  media_type : String
  filename : String
deriving Repr, DecidableEq

/-- `os.path.basename` for the slash-separated paths used here:
the part after the last `/`. -/
def basename (p : String) : String :=
  String.mk ((splitOnChar '/' p.data).getLastD p.data)

/-- `GET /download/{download_token}`: 404 if no row has the token,
403 if the row's status is not 2 (paid), 500 if the product file is
missing on disk (`os.path.exists` becomes the `product_file_exists`
parameter), else the file stream.  Read-only: no store component. -/
def download (cfg : Config) (s : Store) (product_file_exists : Bool)
    (download_token : String) : Except HErr FileOut :=
  match db_get_by_download_token s download_token with
  | none => .error ⟨404, "Link inválido o expirado"⟩
  | some row =>
    if row.status ≠ 2 then
      .error ⟨403, "Pago no confirmado"⟩
    else if product_file_exists = false then
      .error ⟨500, "No existe el archivo del producto: " ++ cfg.product_file⟩
    else
      .ok ⟨cfg.product_file, "application/zip", basename cfg.product_file⟩

/-! ## Store-operation traces (for the state-machine invariants)

The only statements that ever mutate the `orders` table are
`db_create_order`'s INSERT and `db_mark_paid`'s conditional UPDATE.
A trace applies a sequence of them starting from the empty table; a
failed INSERT (duplicate id) leaves the table unchanged. -/

inductive StoreOp
  | create (order_id email commerce_order flow_token now : String)
  | markPaid (flow_token download_token now : String)

/-- Apply one operation; a failed insert leaves the store unchanged. -/
def applyOp (s : Store) : StoreOp → Store
  | .create order_id email commerce_order flow_token now =>
    match db_create_order s order_id email commerce_order flow_token now with
    | .ok s1 => s1
    | .error _ => s
  | .markPaid flow_token download_token now =>
    db_mark_paid s flow_token download_token now

/-- The store reached by a trace of operations from the empty table. -/
def runOps (ops : List StoreOp) : Store :=
  ops.foldl applyOp []

/-! ## Concrete fixtures used by witnesses and counterexamples -/

/-- A fully-configured service. -/
def cfgEx : Config :=
  ⟨"apiKey1", "secretKey1", "https://shop.example", "https://dl.example",
   "products/pack_ia_pymes_2026.zip"⟩

/-- A service with unset gateway credentials. -/
def cfgNoCreds : Config :=
  ⟨"", "", "https://shop.example", "https://dl.example",
   "products/pack_ia_pymes_2026.zip"⟩

/-- A freshly created order (status CREATED, no download token). -/
def orderCreated : Order :=
  ⟨"o1", "t0", "buyer@example.com", "c1", "FT1", 1, none, none⟩

/-- The same order after being marked paid with download token D1. -/
def orderPaid : Order :=
  ⟨"o1", "t0", "buyer@example.com", "c1", "FT1", 2, some "D1", some "t1"⟩

/-- A gateway status reply reporting status 2 (paid). -/
def respPaid : StatusResp := ⟨200, "ok", some (some 2)⟩

/-- A gateway status reply reporting status 1 (pending). -/
def respPending : StatusResp := ⟨200, "ok", some (some 1)⟩

/-- A gateway status reply reporting status 3 (rejected). -/
def respRejected : StatusResp := ⟨200, "ok", some (some 3)⟩

/-- A failed gateway status request (HTTP 503, no JSON body). -/
def respDown : StatusResp := ⟨503, "Service Unavailable", none⟩

/-- A successful `payment/create` reply carrying a token and URL. -/
def crespOk : CreateResp :=
  ⟨200, "ok", some ⟨some "FT1", some "https://flow.example/pay"⟩⟩

/-- A failed `payment/create` request (HTTP 503, no JSON body). -/
def crespDown : CreateResp := ⟨503, "down", none⟩

/-! ## C2 — `db_mark_paid` versus the spec's `markPaidIfUnpaid` -/

/-- The payment invariant: every row is either CREATED with no
download token or PAID with one.  `db_create_order` and
`db_mark_paid` preserve it, so every reachable store satisfies it. -/
def StoreInv (s : Store) : Prop :=
  ∀ o ∈ s, (o.status = 1 ∧ o.download_token = none) ∨
    (o.status = 2 ∧ o.download_token ≠ none)

/-- C2, counterexample: the claim says the update applies **only if**
the row is not already PAID and has no download token, but on a row
with `status = 2` (PAID) and a NULL `download_token` the code's
`... OR download_token IS NULL` condition fires and the row is
rewritten. -/
theorem db_mark_paid_updates_already_paid_row :
    db_mark_paid [⟨"o1", "t0", "e@x.cl", "c1", "F1", 2, none, none⟩] "F1" "D1" "t1"
      = [⟨"o1", "t0", "e@x.cl", "c1", "F1", 2, some "D1", some "t1"⟩] := by
  decide

/-- C2, amended: `db_mark_paid` updates a row when its token matches
and the row is not PAID **or** has no download token (and it returns
nothing); on every store satisfying the payment invariant — in
particular every reachable store — this coincides with the spec's
conditional update (not PAID **and** no token). -/
theorem db_mark_paid_matches_spec_on_invariant_stores
    (s : Store) (ft d now : String) (hinv : StoreInv s) :
    db_mark_paid s ft d now = markPaidIfUnpaid_spec s ft d now := by
  unfold db_mark_paid markPaidIfUnpaid_spec
  apply List.map_congr_left
  intro o ho
  rcases hinv o ho with ⟨h1, h2⟩ | ⟨h1, h2⟩
  · by_cases hft : o.flow_token = ft
    · simp [hft, h1, h2]
    · simp [hft]
  · simp [h1, h2]

/-- C2, witness: the equivalence applied to a concrete invariant
store. -/
theorem db_mark_paid_matches_spec_witness :
    StoreInv [orderPaid] ∧
    db_mark_paid [orderPaid] "FT1" "D9" "t9"
      = markPaidIfUnpaid_spec [orderPaid] "FT1" "D9" "t9" :=
  ⟨by unfold StoreInv; decide,
   db_mark_paid_matches_spec_on_invariant_stores [orderPaid] "FT1" "D9" "t9"
     (by unfold StoreInv; decide)⟩

/-! ## C6 — duplicate detection in `db_create_order` -/

/-- C6, counterexample: `commerce_order` carries no uniqueness
constraint, so inserting a second order with the same
`commerce_order` "C" (and a fresh id) succeeds instead of failing
with a duplicate-order error as the claim requires. -/
theorem db_create_order_duplicate_commerce_accepted :
    db_create_order [⟨"o1", "t0", "e@x.cl", "C", "F1", 1, none, none⟩]
        "o2" "e@x.cl" "C" "F2" "t1"
      = .ok [⟨"o1", "t0", "e@x.cl", "C", "F1", 1, none, none⟩,
             ⟨"o2", "t1", "e@x.cl", "C", "F2", 1, none, none⟩] := by
  rfl

/-- C6, amended: `db_create_order` fails with the duplicate error
exactly when the `id` already exists (the PRIMARY KEY — duplicate
`commerce_order` values are accepted), and otherwise appends a new
order with status CREATED and no download token. -/
theorem db_create_order_duplicate_id_only
    (s : Store) (oid em co ft now : String) :
    (db_create_order s oid em co ft now = .error "UNIQUE constraint failed: orders.id"
      ↔ ∃ o ∈ s, o.id = oid) ∧
    ((¬ ∃ o ∈ s, o.id = oid) →
      db_create_order s oid em co ft now
        = .ok (s ++ [⟨oid, now, em, co, ft, 1, none, none⟩])) := by
  constructor
  · constructor
    · intro h
      by_cases hc : ∃ o ∈ s, o.id = oid
      · exact hc
      · have hany : s.any (fun o => o.id = oid) = false := by
          simpa [List.any_eq_true] using hc
        simp [db_create_order, hany] at h
    · intro hc
      have hany : s.any (fun o => o.id = oid) = true := by
        simpa [List.any_eq_true] using hc
      simp [db_create_order, hany]
  · intro hc
    have hany : s.any (fun o => o.id = oid) = false := by
      simpa [List.any_eq_true] using hc
    simp [db_create_order, hany]

/-- C6, witness: a duplicate id is rejected and a fresh id is
inserted as CREATED. -/
theorem db_create_order_duplicate_id_only_witness :
    db_create_order [orderCreated] "o1" "e@x.cl" "C" "F2" "t1"
        = .error "UNIQUE constraint failed: orders.id" ∧
    db_create_order [orderCreated] "o9" "e@x.cl" "C" "F2" "t1"
        = .ok [orderCreated, ⟨"o9", "t1", "e@x.cl", "C", "F2", 1, none, none⟩] :=
  ⟨(db_create_order_duplicate_id_only [orderCreated] "o1" "e@x.cl" "C" "F2" "t1").1.mpr
      ⟨orderCreated, by decide, by decide⟩,
   (db_create_order_duplicate_id_only [orderCreated] "o9" "e@x.cl" "C" "F2" "t1").2
      (by decide)⟩

/-! ## C7 — `/download/{token}` authorization -/

/-- C7: the download endpoint returns 404 when no row carries the
token, 403 when the row is not PAID, 500 when the row is PAID but the
product file is missing, the file stream when PAID and present — and
a file stream is only ever produced for a PAID row. -/
theorem download_error_taxonomy (cfg : Config) (s : Store) (pe : Bool) (t : String) :
    (db_get_by_download_token s t = none →
      download cfg s pe t = .error ⟨404, "Link inválido o expirado"⟩) ∧
    (∀ row, db_get_by_download_token s t = some row → row.status ≠ 2 →
      download cfg s pe t = .error ⟨403, "Pago no confirmado"⟩) ∧
    (∀ row, db_get_by_download_token s t = some row → row.status = 2 → pe = false →
      download cfg s pe t
        = .error ⟨500, "No existe el archivo del producto: " ++ cfg.product_file⟩) ∧
    (∀ row, db_get_by_download_token s t = some row → row.status = 2 → pe = true →
      download cfg s pe t
        = .ok ⟨cfg.product_file, "application/zip", basename cfg.product_file⟩) ∧
    (∀ f, download cfg s pe t = .ok f →
      ∃ row, db_get_by_download_token s t = some row ∧ row.status = 2) := by
  refine ⟨?_, ?_, ?_, ?_, ?_⟩
  · intro h; simp [download, h]
  · intro row h hst; simp [download, h, hst]
  · intro row h hst hpe; subst hpe; simp [download, h, hst]
  · intro row h hst hpe; subst hpe; simp [download, h, hst]
  · intro f hf
    cases hdb : db_get_by_download_token s t with
    | none => simp [download, hdb] at hf
    | some row =>
      refine ⟨row, rfl, ?_⟩
      by_contra hst
      simp [download, hdb, hst] at hf

/-- C7, witness: a paid row streams the file; an unknown token is
404; a created (unpaid) row is 403. -/
theorem download_error_taxonomy_witness :
    download cfgEx [orderPaid] true "D1"
      = .ok ⟨cfgEx.product_file, "application/zip", basename cfgEx.product_file⟩ ∧
    download cfgEx [orderCreated] true "D1" = .error ⟨404, "Link inválido o expirado"⟩ ∧
    download cfgEx [⟨"o1", "t0", "e@x.cl", "c1", "F1", 1, some "D1", none⟩] true "D1"
      = .error ⟨403, "Pago no confirmado"⟩ :=
  ⟨(download_error_taxonomy cfgEx [orderPaid] true "D1").2.2.2.1 orderPaid (by decide)
      (by decide) rfl,
   (download_error_taxonomy cfgEx [orderCreated] true "D1").1 (by decide),
   (download_error_taxonomy cfgEx [⟨"o1", "t0", "e@x.cl", "c1", "F1", 1, some "D1", none⟩]
      true "D1").2.1 ⟨"o1", "t0", "e@x.cl", "c1", "F1", 1, some "D1", none⟩ (by decide)
      (by decide)⟩

/-! ## C8 — `flow_get_status` error taxonomy -/

/-- C8, counterexample: with both credentials unset, `flow_post`
(used by createPayment) raises the 500 configuration error, but
`flow_get_status` performs no credential check at all and happily
returns the parsed status — the two do NOT share the same error
taxonomy. -/
theorem flow_get_status_no_credential_check :
    flow_get_status cfgNoCreds "T" respPaid = .ok (some 2) ∧
    flow_post cfgNoCreds [] crespOk
      = .error ⟨500, "FLOW_API_KEY / FLOW_SECRET_KEY no configuradas en .env"⟩ :=
  ⟨rfl, rfl⟩

/-- C8, amended: `flow_get_status` raises the gateway-HTTP error 400
on a non-success HTTP status and the gateway-protocol error 400 on an
unparseable body, like createPayment — but it performs no
credential check: for every configuration, even one with unset
credentials, a parseable 200 reply is returned as-is. -/
theorem flow_get_status_error_taxonomy (cfg : Config) (tok : String) (resp : StatusResp) :
    (resp.status_code ≠ 200 →
      flow_get_status cfg tok resp = .error ⟨400, "Flow status error: " ++ resp.text⟩) ∧
    (resp.status_code = 200 → resp.json = none →
      flow_get_status cfg tok resp
        = .error ⟨400, "Flow status response no-JSON: " ++ resp.text⟩) ∧
    (∀ j, resp.status_code = 200 → resp.json = some j →
      flow_get_status cfg tok resp = .ok j) := by
  refine ⟨?_, ?_, ?_⟩
  · intro h; simp [flow_get_status, h]
  · intro h hj; simp [flow_get_status, h, hj]
  · intro j h hj; simp [flow_get_status, h, hj]

/-- C8, witness: the taxonomy applied to a failed request, an
unparseable 200 reply, and a parseable reply under empty
credentials. -/
theorem flow_get_status_error_taxonomy_witness :
    flow_get_status cfgEx "T" respDown
      = .error ⟨400, "Flow status error: Service Unavailable"⟩ ∧
    flow_get_status cfgEx "T" ⟨200, "<html>", none⟩
      = .error ⟨400, "Flow status response no-JSON: <html>"⟩ ∧
    flow_get_status cfgNoCreds "T" respPending = .ok (some 1) :=
  ⟨(flow_get_status_error_taxonomy cfgEx "T" respDown).1 (by decide),
   (flow_get_status_error_taxonomy cfgEx "T" ⟨200, "<html>", none⟩).2.1 rfl rfl,
   (flow_get_status_error_taxonomy cfgNoCreds "T" respPending).2.2 (some 1) rfl rfl⟩

/-! ## C9 — browser return page -/

/-- C9: the return handler never touches the store, and (when the
status lookup succeeds) maps authoritative status 2 (PAID) to the
"confirmed, check email" message, 1 (PENDING) to the "pending"
message, and anything else to `ok:false` with the "not completed"
message. -/
theorem flow_return_display (cfg : Config) (s : Store) (tok : String)
    (resp : StatusResp) (j : Option Nat)
    (htok : pyStrip tok = tok) (hne : tok ≠ "")
    (hst : resp.status_code = 200) (hjson : resp.json = some j) :
    (∀ ft r, (flow_return cfg s ft r).1 = s) ∧
    (j.getD 0 = 2 → (flow_return cfg s (some tok) resp).2
      = .ok ⟨true, none, none,
          some "Pago confirmado. Revisa tu correo para el link de descarga."⟩) ∧
    (j.getD 0 = 1 → (flow_return cfg s (some tok) resp).2
      = .ok ⟨true, none, none,
          some "Pago pendiente. Si fue transferencia/cupón, puede tardar."⟩) ∧
    (j.getD 0 ≠ 2 → j.getD 0 ≠ 1 → (flow_return cfg s (some tok) resp).2
      = .ok ⟨false, none, none, some "Pago no completado (rechazado/anulado)."⟩) := by
  refine ⟨?_, ?_, ?_, ?_⟩
  · intro ft r
    simp only [flow_return]
    split
    · rfl
    · split
      · rfl
      · split
        · rfl
        · split <;> rfl
  · intro h2
    simp [flow_return, flow_get_status, htok, hne, hst, hjson, h2]
  · intro h1
    simp [flow_return, flow_get_status, htok, hne, hst, hjson, h1]
  · intro h2 h1
    simp [flow_return, flow_get_status, htok, hne, hst, hjson, h2, h1]

/-- C9, witness: the three messages on concrete paid, pending and
rejected gateway replies, with the store untouched. -/
theorem flow_return_display_witness :
    (flow_return cfgEx [orderCreated] (some "FT1") respPaid).1 = [orderCreated] ∧
    (flow_return cfgEx [orderCreated] (some "FT1") respPaid).2
      = .ok ⟨true, none, none,
          some "Pago confirmado. Revisa tu correo para el link de descarga."⟩ ∧
    (flow_return cfgEx [orderCreated] (some "FT1") respPending).2
      = .ok ⟨true, none, none,
          some "Pago pendiente. Si fue transferencia/cupón, puede tardar."⟩ ∧
    (flow_return cfgEx [orderCreated] (some "FT1") respRejected).2
      = .ok ⟨false, none, none, some "Pago no completado (rechazado/anulado)."⟩ :=
  ⟨(flow_return_display cfgEx [orderCreated] "FT1" respPaid (some 2)
      rfl (by decide) rfl rfl).1 (some "FT1") respPaid,
   (flow_return_display cfgEx [orderCreated] "FT1" respPaid (some 2)
      rfl (by decide) rfl rfl).2.1 rfl,
   (flow_return_display cfgEx [orderCreated] "FT1" respPending (some 1)
      rfl (by decide) rfl rfl).2.2.1 rfl,
   (flow_return_display cfgEx [orderCreated] "FT1" respRejected (some 3)
      rfl (by decide) rfl rfl).2.2.2 (by decide) (by decide)⟩

/-! ## C10 — no order row without a gateway session -/

/-- A gateway-call failure in `flow_post` (missing credentials,
non-success HTTP status, or unparseable body) always yields an
error, for any parameter set. -/
theorem flow_post_gateway_failure (cfg : Config) (params : List (String × String))
    (resp : CreateResp)
    (h : cfg.flow_api_key = "" ∨ cfg.flow_secret_key = "" ∨
         resp.status_code ≠ 200 ∨ resp.json = none) :
    ∃ e, flow_post cfg params resp = .error e := by
  by_cases hc : cfg.flow_api_key = "" ∨ cfg.flow_secret_key = ""
  · exact ⟨⟨500, "FLOW_API_KEY / FLOW_SECRET_KEY no configuradas en .env"⟩,
      by simp [flow_post, hc]⟩
  · rcases h with h | h | h | h
    · exact absurd (Or.inl h) hc
    · exact absurd (Or.inr h) hc
    · exact ⟨⟨400, "Flow error: " ++ resp.text⟩, by simp [flow_post, hc, h]⟩
    · by_cases hs : resp.status_code = 200
      · exact ⟨⟨400, "Flow response no-JSON: " ++ resp.text⟩,
          by simp [flow_post, hc, hs, h]⟩
      · exact ⟨⟨400, "Flow error: " ++ resp.text⟩, by simp [flow_post, hc, hs]⟩

/-- C10: when the gateway call fails (missing credentials,
non-success HTTP status, or unparseable body), `pay_create` raises
before any persistence: the store is returned unchanged and the
result is an error — no order row exists for a checkout whose
gateway session was never obtained. -/
theorem pay_create_no_order_on_gateway_failure (cfg : Config) (s : Store)
    (payload_email : Option String) (resp : CreateResp) (co oid now : String)
    (h : cfg.flow_api_key = "" ∨ cfg.flow_secret_key = "" ∨
         resp.status_code ≠ 200 ∨ resp.json = none) :
    (pay_create cfg s payload_email resp co oid now).1 = s ∧
    ∃ e, (pay_create cfg s payload_email resp co oid now).2 = .error e := by
  by_cases h1 : is_valid_email (pyLower (pyStrip (payload_email.getD ""))) = false
  · exact ⟨by simp [pay_create, h1],
      ⟨⟨400, "Email inválido o faltante"⟩, by simp [pay_create, h1]⟩⟩
  · by_cases h2 : cfg.public_base_url = ""
    · exact ⟨by simp [pay_create, h1, h2],
        ⟨⟨500, "PUBLIC_BASE_URL no está configurado (necesario para urlConfirmation/urlReturn públicos)."⟩,
         by simp [pay_create, h1, h2]⟩⟩
    · obtain ⟨e, he⟩ := flow_post_gateway_failure cfg
        (pay_create_params cfg co oid (pyLower (pyStrip (payload_email.getD "")))) resp h
      exact ⟨by simp [pay_create, h1, h2, he], ⟨e, by simp [pay_create, h1, h2, he]⟩⟩

/-- C10, witness: a valid request against a gateway that answers 503
leaves the store empty and errors. -/
theorem pay_create_no_order_on_gateway_failure_witness :
    (pay_create cfgEx [] (some "buyer@example.com") crespDown "c1" "o1" "t0").1 = [] ∧
    ∃ e, (pay_create cfgEx [] (some "buyer@example.com") crespDown "c1" "o1" "t0").2
      = .error e :=
  pay_create_no_order_on_gateway_failure cfgEx [] (some "buyer@example.com")
    crespDown "c1" "o1" "t0" (by decide)

/-! ## C3 — callback responses to the gateway -/

/-- C3: the callback endpoint answers 200 with `ok:false` when the
token is missing and 200 with a warning when the order is unknown —
but when the gateway status check itself fails (here HTTP 503), the
`HTTPException` raised inside `flow_get_status` escapes the handler,
so the gateway receives status 400, not a success: the code
contradicts the handler's own "must answer 200" contract on that
path. -/
theorem flow_confirmation_error_on_status_check_failure :
    flow_confirmation cfgEx [orderCreated] none respPaid "D1" "t1"
      = ([orderCreated], [], .ok ⟨false, some "missing token", none, none⟩) ∧
    flow_confirmation cfgEx [] (some "FT1") respPaid "D1" "t1"
      = ([], [], .ok ⟨true, none, some "order_not_found", none⟩) ∧
    flow_confirmation cfgEx [orderCreated] (some "FT1") respDown "D1" "t1"
      = ([orderCreated], [], .error ⟨400, "Flow status error: Service Unavailable"⟩) :=
  ⟨rfl, rfl, rfl⟩

/-! ## C1 — duplicate confirmation callbacks -/

/-- C1, counterexample: two PAID callbacks in a row for the same
order schedule one notification EACH — two in total, because the
`add_task` call sits outside the download-token branch — although the
second callback applies no state transition (the claim allows at most
one notification, scheduled only when the conditional update
applied). -/
theorem flow_confirmation_second_callback_renotifies :
    (flow_confirmation cfgEx [orderCreated] (some "FT1") respPaid "D1" "t1").2.1
      = [("buyer@example.com", "https://dl.example/download/D1")] ∧
    (flow_confirmation cfgEx
        (flow_confirmation cfgEx [orderCreated] (some "FT1") respPaid "D1" "t1").1
        (some "FT1") respPaid "D2" "t2").2.1
      = [("buyer@example.com", "https://dl.example/download/D1")] ∧
    (flow_confirmation cfgEx
        (flow_confirmation cfgEx [orderCreated] (some "FT1") respPaid "D1" "t1").1
        (some "FT1") respPaid "D2" "t2").1
      = (flow_confirmation cfgEx [orderCreated] (some "FT1") respPaid "D1" "t1").1 :=
  ⟨rfl, rfl, rfl⟩

/-- C1, amended: processing a PAID confirmation callback twice in a
row marks the order PAID once and assigns exactly one download token
(the second callback reuses the existing token and leaves the store
unchanged), but a notification carrying the same download link is
scheduled by EACH paid callback — one per delivery, not at most one
per order. -/
theorem flow_confirmation_redelivery (cfg : Config) (o : Order)
    (tok d1 d2 now1 now2 : String) (resp : StatusResp)
    (hresp : resp.status_code = 200) (hjson : resp.json = some (some 2))
    (htok : pyStrip tok = tok) (hne : tok ≠ "")
    (hof : o.flow_token = tok) (hos : o.status = 1) (hod : o.download_token = none)
    (hd1 : d1 ≠ "") :
    flow_confirmation cfg [o] (some tok) resp d1 now1
      = ([⟨o.id, o.created_at, o.email, o.commerce_order, tok, 2, some d1, some now1⟩],
         [(o.email, cfg.download_base_url ++ "/download/" ++ d1)],
         .ok ⟨true, none, none, none⟩) ∧
    flow_confirmation cfg
        [⟨o.id, o.created_at, o.email, o.commerce_order, tok, 2, some d1, some now1⟩]
        (some tok) resp d2 now2
      = ([⟨o.id, o.created_at, o.email, o.commerce_order, tok, 2, some d1, some now1⟩],
         [(o.email, cfg.download_base_url ++ "/download/" ++ d1)],
         .ok ⟨true, none, none, none⟩) := by
  constructor
  · simp [flow_confirmation, flow_get_status, db_get_by_flow_token, db_mark_paid,
      hresp, hjson, htok, hne, hof, hos, hod]
  · simp [flow_confirmation, flow_get_status, db_get_by_flow_token,
      hresp, hjson, htok, hne, hd1]

/-- C1, witness: the redelivery behaviour at a concrete order and
gateway reply. -/
theorem flow_confirmation_redelivery_witness :
    flow_confirmation cfgEx [orderCreated] (some "FT1") respPaid "D1" "t1"
      = ([⟨"o1", "t0", "buyer@example.com", "c1", "FT1", 2, some "D1", some "t1"⟩],
         [("buyer@example.com", "https://dl.example/download/D1")],
         .ok ⟨true, none, none, none⟩) ∧
    flow_confirmation cfgEx
        [⟨"o1", "t0", "buyer@example.com", "c1", "FT1", 2, some "D1", some "t1"⟩]
        (some "FT1") respPaid "D2" "t2"
      = ([⟨"o1", "t0", "buyer@example.com", "c1", "FT1", 2, some "D1", some "t1"⟩],
         [("buyer@example.com", "https://dl.example/download/D1")],
         .ok ⟨true, none, none, none⟩) :=
  flow_confirmation_redelivery cfgEx orderCreated "FT1" "D1" "D2" "t1" "t2" respPaid
    rfl rfl rfl (by decide) rfl rfl rfl (by decide)

/-! ## C4 — the order state machine -/

/-- One step of an order's lifecycle as the claim states it: a
CREATED order (no token) either stays CREATED with no token or
becomes PAID together with a download token; a PAID order stays PAID
and its token never changes. -/
def orderStep (o o' : Order) : Prop :=
  (o.status = 1 ∧ o.download_token = none ∧
    ((o'.status = 1 ∧ o'.download_token = none) ∨
     (o'.status = 2 ∧ o'.download_token ≠ none))) ∨
  (o.status = 2 ∧ o.download_token ≠ none ∧ o'.status = 2 ∧
    o'.download_token = o.download_token)

/-- Both mutating statements preserve the payment invariant. -/
theorem storeInv_applyOp (s : Store) (op : StoreOp) (h : StoreInv s) :
    StoreInv (applyOp s op) := by
  cases op with
  | create oid em co ft now =>
    simp only [applyOp, db_create_order]
    by_cases hc : s.any (fun o => o.id = oid) = true
    · simpa [hc] using h
    · have hc2 : s.any (fun o => o.id = oid) = false := by
        simpa using hc
      intro o ho
      have ho4 : o ∈ s ∨ o = ⟨oid, now, em, co, ft, 1, none, none⟩ := by
        simpa [hc2] using ho
      rcases ho4 with ho1 | heq
      · exact h o ho1
      · subst heq
        exact Or.inl ⟨rfl, rfl⟩
  | markPaid ft d now =>
    intro o' ho'
    simp only [applyOp, db_mark_paid] at ho'
    rcases List.mem_map.mp ho' with ⟨o, ho, hfo⟩
    subst hfo
    rcases h o ho with ⟨h1, h2⟩ | ⟨h1, h2⟩
    · by_cases hc : o.flow_token = ft ∧ (o.status ≠ 2 ∨ o.download_token = none)
      · rw [if_pos hc]
        exact Or.inr ⟨rfl, by simp⟩
      · rw [if_neg hc]
        exact Or.inl ⟨h1, h2⟩
    · have hc : ¬ (o.flow_token = ft ∧ (o.status ≠ 2 ∨ o.download_token = none)) := by
        rintro ⟨-, h3 | h3⟩
        · exact h3 h1
        · exact h2 h3
      rw [if_neg hc]
      exact Or.inr ⟨h1, h2⟩

/-- Every store reachable from the empty table satisfies the payment
invariant. -/
theorem storeInv_runOps (ops : List StoreOp) : StoreInv (runOps ops) := by
  have key : ∀ (l : List StoreOp) (s : Store), StoreInv s → StoreInv (l.foldl applyOp s) := by
    intro l
    induction l with
    | nil => intro s hs; exact hs
    | cons op rest ih => intro s hs; exact ih _ (storeInv_applyOp s op hs)
  exact key ops [] (fun o ho => absurd ho (List.not_mem_nil o))

/-- On an invariant store, each operation moves every individual row
along the claimed state machine. -/
theorem applyOp_orderStep (s : Store) (op : StoreOp) (i : Nat) (o o' : Order)
    (hinv : StoreInv s) (h : s[i]? = some o) (h' : (applyOp s op)[i]? = some o') :
    orderStep o o' := by
  have hlt : i < s.length := (List.getElem?_eq_some_iff.mp h).1
  have hmem : o ∈ s := by
    obtain ⟨hl, hget⟩ := List.getElem?_eq_some_iff.mp h
    exact hget ▸ List.getElem_mem hl
  have step_id : orderStep o o := by
    rcases hinv o hmem with ⟨h1, h2⟩ | ⟨h1, h2⟩
    · exact Or.inl ⟨h1, h2, Or.inl ⟨h1, h2⟩⟩
    · exact Or.inr ⟨h1, h2, h1, rfl⟩
  cases op with
  | create oid em co ft now =>
    have hoo : o' = o := by
      simp only [applyOp, db_create_order] at h'
      by_cases hc : s.any (fun o2 => o2.id = oid) = true
      · simp only [hc, if_true] at h'
        exact (Option.some.inj (h.symm.trans h')).symm
      · have hc2 : s.any (fun o2 => o2.id = oid) = false := by simpa using hc
        simp [hc2] at h'
        rw [List.getElem?_append_left hlt, h] at h'
        exact (Option.some.inj h').symm
    rw [hoo]
    exact step_id
  | markPaid ft d now =>
    simp only [applyOp, db_mark_paid] at h'
    rw [List.getElem?_map, h, Option.map_some'] at h'
    have ho' := (Option.some.inj h').symm
    rcases hinv o hmem with ⟨h1, h2⟩ | ⟨h1, h2⟩
    · by_cases hc : o.flow_token = ft ∧ (o.status ≠ 2 ∨ o.download_token = none)
      · have ho2 : o' = ⟨o.id, o.created_at, o.email, o.commerce_order, o.flow_token,
            2, some d, some now⟩ := by
          rw [ho']; simp [hc]
        rw [ho2]
        exact Or.inl ⟨h1, h2, Or.inr ⟨rfl, by simp⟩⟩
      · have ho2 : o' = o := by rw [ho']; simp [hc]
        rw [ho2]
        exact step_id
    · have hc : ¬ (o.flow_token = ft ∧ (o.status ≠ 2 ∨ o.download_token = none)) := by
        rintro ⟨-, h3 | h3⟩
        · exact h3 h1
        · exact h2 h3
      have ho2 : o' = o := by rw [ho']; simp [hc]
      rw [ho2]
      exact step_id

/-- C4: from the empty store, every reachable store satisfies the
payment invariant (a row is CREATED with no download token or PAID
with one), and each further operation moves every row along the
claimed machine: CREATED → CREATED (no token) or CREATED → PAID with
the token assigned in the same step; PAID is terminal and a non-null
download token never changes. -/
theorem store_state_machine (ops : List StoreOp) (op : StoreOp) (i : Nat) (o o' : Order)
    (h : (runOps ops)[i]? = some o) (h' : (applyOp (runOps ops) op)[i]? = some o') :
    StoreInv (runOps ops) ∧ orderStep o o' :=
  ⟨storeInv_runOps ops, applyOp_orderStep _ op i o o' (storeInv_runOps ops) h h'⟩

/-- C4, witness: a create followed by a mark-paid walks the order
CREATED → PAID with its token assigned in the same step. -/
theorem store_state_machine_witness :
    StoreInv (runOps [.create "o1" "e@x.cl" "c1" "F1" "t0"]) ∧
    orderStep ⟨"o1", "t0", "e@x.cl", "c1", "F1", 1, none, none⟩
      ⟨"o1", "t0", "e@x.cl", "c1", "F1", 2, some "D1", some "t1"⟩ :=
  store_state_machine [.create "o1" "e@x.cl" "c1" "F1" "t0"]
    (.markPaid "F1" "D1" "t1") 0
    ⟨"o1", "t0", "e@x.cl", "c1", "F1", 1, none, none⟩
    ⟨"o1", "t0", "e@x.cl", "c1", "F1", 2, some "D1", some "t1"⟩ rfl rfl

/-! ## C5 — the signing algorithm -/

/-- Code-point comparison is asymmetric. -/
theorem pyStrLt_asymm : ∀ a b : List Char, pyStrLt a b = true → pyStrLt b a = false := by
  intro a
  induction a with
  | nil =>
    intro b hb
    cases b with
    | nil => simp [pyStrLt] at hb
    | cons d ds => simp [pyStrLt]
  | cons c cs ih =>
    intro b hb
    cases b with
    | nil => simp [pyStrLt] at hb
    | cons d ds =>
      simp only [pyStrLt] at hb ⊢
      by_cases h1 : c < d
      · have h2 : ¬ d < c := lt_asymm h1
        simp [h1, h2]
      · by_cases h2 : d < c
        · simp [h1, h2] at hb
        · simp only [h1, h2, if_false] at hb ⊢
          simpa using ih ds (by simpa using hb)

/-- Two lists neither of which compares below the other are equal. -/
theorem pyStrLt_conn : ∀ a b : List Char, pyStrLt a b = false → pyStrLt b a = false → a = b := by
  intro a
  induction a with
  | nil =>
    intro b h1 h2
    cases b with
    | nil => rfl
    | cons d ds => simp [pyStrLt] at h1
  | cons c cs ih =>
    intro b h1 h2
    cases b with
    | nil => simp [pyStrLt] at h2
    | cons d ds =>
      simp only [pyStrLt] at h1 h2
      by_cases hcd : c < d
      · simp [hcd] at h1
      · by_cases hdc : d < c
        · simp [hdc] at h2
        · have hc : c = d := le_antisymm (not_lt.mp hdc) (not_lt.mp hcd)
          have hrest : cs = ds :=
            ih ds (by simpa [hcd, hdc] using h1) (by simpa [hdc, hcd] using h2)
          rw [hc, hrest]

/-- C5, counterexample: `flow_sign` signs every entry of the map it
is given — it does NOT exclude a pre-existing signature field `s`, so
on a map containing one it differs from the spec's algorithm.  The
two digests are pinned to the values the Python implementation
produces. -/
theorem flow_sign_signs_sig_field :
    flow_sign [("a", "1"), ("s", "x")] "k"
      = "c7c61002d822cf7afc8048e2082defb819e02f39bdcd4f17552033360f7143fb" ∧
    sign_spec [("a", "1"), ("s", "x")] "k"
      = "e4a8bbc3e2b59bfb4f1dcce0558c0a6c9bb09092c1eff46cbfca6022187c93af" ∧
    flow_sign [("a", "1"), ("s", "x")] "k" ≠ sign_spec [("a", "1"), ("s", "x")] "k" := by
  have h1 : flow_sign [("a", "1"), ("s", "x")] "k"
      = "c7c61002d822cf7afc8048e2082defb819e02f39bdcd4f17552033360f7143fb" := by decide
  have h2 : sign_spec [("a", "1"), ("s", "x")] "k"
      = "e4a8bbc3e2b59bfb4f1dcce0558c0a6c9bb09092c1eff46cbfca6022187c93af" := by decide
  exact ⟨h1, h2, by rw [h1, h2]; decide⟩

/-- C5, amended: on any map with no pre-existing signature field —
which is how every call site uses it — `flow_sign` is exactly the
spec's algorithm (sort by key ascending, concatenate key then
string-rendered value with no separator, HMAC-SHA256, lowercase hex),
and the digest is independent of the map's iteration order. -/
theorem flow_sign_matches_spec (params : List (String × String)) (secret : String)
    (hs : "s" ∉ params.map Prod.fst) :
    flow_sign params secret = sign_spec params secret ∧
    ∀ k1 v1 k2 v2 : String, k1 ≠ k2 →
      flow_sign [(k1, v1), (k2, v2)] secret = flow_sign [(k2, v2), (k1, v1)] secret := by
  constructor
  · have hfil : params.filter (fun kv => kv.1 ≠ "s") = params := by
      apply List.filter_eq_self.mpr
      intro kv hkv
      simp only [ne_eq, decide_not, Bool.not_eq_true', decide_eq_false_iff_not]
      intro heq
      exact hs (heq ▸ List.mem_map_of_mem Prod.fst hkv)
    simp only [flow_sign, sign_spec, hfil]
  · intro k1 v1 k2 v2 hne12
    have key : sortByKey [(k1, v1), (k2, v2)] = sortByKey [(k2, v2), (k1, v1)] := by
      simp only [sortByKey, List.foldl, insertAfterLe]
      cases hlt : pyStrLt k2.data k1.data with
      | true =>
        have h2 : pyStrLt k1.data k2.data = false := pyStrLt_asymm _ _ hlt
        simp [insertAfterLe, pyStrLe, hlt, h2]
      | false =>
        cases hlt2 : pyStrLt k1.data k2.data with
        | true => simp [insertAfterLe, pyStrLe, hlt, hlt2]
        | false =>
          exfalso
          apply hne12
          have hdata := pyStrLt_conn k1.data k2.data hlt2 hlt
          cases k1
          cases k2
          exact congrArg String.mk hdata
    simp only [flow_sign, key]

/-- C5, witness: the refinement and order-independence at the spec's
own example `sign(\x7bb:2,a:1\x7d, k) == sign(\x7ba:1,b:2\x7d, k)`. -/
theorem flow_sign_matches_spec_witness :
    flow_sign [("b", "2"), ("a", "1")] "k" = sign_spec [("b", "2"), ("a", "1")] "k" ∧
    flow_sign [("b", "2"), ("a", "1")] "k" = flow_sign [("a", "1"), ("b", "2")] "k" :=
  ⟨(flow_sign_matches_spec [("b", "2"), ("a", "1")] "k" (by decide)).1,
   (flow_sign_matches_spec [("b", "2"), ("a", "1")] "k" (by decide)).2
      "b" "2" "a" "1" (by decide)⟩

end FlowBackend
